import Mathlib

/-!
Verification of the Piwik PRO MCP server (`piwik_pro_mcp.py`): a shallow
embedding of the analytics client (token caching, API call construction,
response handling) and the five MCP tools (argument validation and dispatch),
together with theorems settling the specification's claims.

Modelling conventions:
* Wall-clock instants and durations (`datetime.now().timestamp()`,
  `expires_in`) are natural numbers; only order and addition matter.
* An HTTP interaction is an oracle value (`TokenExchange`, `HttpOutcome`)
  supplied to the function under study: it records the transport outcome,
  the status code and the body.  `response.json()` is modelled by carrying
  the parse result (`Option Json`, `none` meaning `JSONDecodeError`)
  alongside the raw text.
* Per the `requests` library, `response.raise_for_status()` raises
  `HTTPError` exactly when `400 ≤ status < 600`, and a raised
  `RequestException` is caught by the `except` clauses in the source.
* Python truthiness on the values that occur here: a string is falsy iff
  empty, an optional is falsy when `None`, a number is falsy iff zero.
* A tool or client method runs up to the single HTTP request it delegates;
  its result is `Except String ApiRequest` where the `.error` message is the
  exact `Exception` message raised by the Python code and the `.ok` value
  describes the request that goes on the wire.  A `.error` result therefore
  means that no network call occurs.
-/

namespace PiwikProMcp

set_option maxRecDepth 8000

/-- JSON values, as produced by `response.json()`. -/
inductive Json where
  | null : Json
  | bool (b : Bool) : Json
  | num (n : Int) : Json
  | str (s : String) : Json
  | arr (elems : List Json) : Json
  | obj (fields : List (String × Json)) : Json

/-- `os.getenv("PIWIK_PRO_DOMAIN", "analytics.piwik.pro")`: the configured
domain, defaulting when the environment variable is absent. -/
def piwikProDomain (envDomain : Option String) : String :=
  envDomain.getD "analytics.piwik.pro"

/-- `BASE_URL = f"https://{PIWIK_PRO_DOMAIN}"`. -/
def BASE_URL (envDomain : Option String) : String :=
  "https://" ++ piwikProDomain envDomain

/-- `url = f"{BASE_URL}{endpoint}"` inside `_make_api_call`. -/
def apiUrl (envDomain : Option String) (endpoint : String) : String :=
  BASE_URL envDomain ++ endpoint

/-- The `PiwikAnalytics` client: credentials, domain and the token cache
(`self.token`, `self.token_expiry`), both `None` after `__init__`. -/
structure PiwikAnalytics where
  client_id : String
  client_secret : String
  domain : String
  token : Option String
  token_expiry : Option Nat
deriving DecidableEq, Repr

/-- `PiwikAnalytics.__init__`: stores the credentials, token cache empty. -/
def PiwikAnalytics.init (client_id client_secret domain : String) :
    PiwikAnalytics :=
  ⟨client_id, client_secret, domain, none, none⟩

/-- Module-level initialization: the global `piwik` is constructed only when
both `PIWIK_PRO_CLIENT_ID` and `PIWIK_PRO_CLIENT_SECRET` are truthy. -/
def initPiwik (client_id client_secret : Option String)
    (envDomain : Option String) : Option PiwikAnalytics :=
  match client_id, client_secret with
  | some cid, some cs =>
      if cid ≠ "" ∧ cs ≠ "" then
        some ( PiwikAnalytics.init cid cs (piwikProDomain envDomain))
      else none
  | _, _ => none

/-- The relevant fields of the token endpoint's JSON body:
`access_token` and `expires_in`, either possibly absent. -/
structure TokenBody where
  access_token : Option String
  expires_in : Option Nat
deriving DecidableEq, Repr

/-- Outcome of the `requests.post` against `/auth/token`:
either a `RequestException` with no response (transport failure), or a
response with its status and body.  `body = none` models a body that is not
valid JSON (`response.json()` raises `JSONDecodeError`). -/
inductive TokenExchange where
  | transportError : TokenExchange
  | httpResponse (status : Nat) (body : Option TokenBody) : TokenExchange
deriving DecidableEq, Repr

/-- How `_get_auth_token` terminates: with a token, with the caught
`Exception("Authentication failed: ...")`, or with an uncaught error
(`JSONDecodeError` / `KeyError`), which is not a `RequestException`. -/
inductive AuthResult where
  | ok (token : String) : AuthResult
  | authFailed : AuthResult
  | uncaughtError : AuthResult
deriving DecidableEq, Repr

/-- One call of `_get_auth_token`: its result, the client state after the
call, and how many token exchanges (POSTs to `/auth/token`) it performed. -/
structure AuthStep where
  result : AuthResult
  client : PiwikAnalytics
  exchanges : Nat
deriving DecidableEq, Repr

/-- `if self.token and self.token_expiry and current_timestamp <
self.token_expiry:` — Python truthiness of the cache fields plus the
strict comparison against the current time. -/
def token_cache_valid (p : PiwikAnalytics) (now : Nat) : Bool :=
  match p.token, p.token_expiry with
  | some t, some e => t ≠ "" && e ≠ 0 && now < e
  | _, _ => false

/-- `PiwikAnalytics._get_auth_token`, lines 47–70 of the source: return the
cached token while valid, otherwise perform one client-credentials exchange;
on success cache the token and set
`token_expiry = current_timestamp + expires_in` (default 3600). -/
def get_auth_token (p : PiwikAnalytics) (now : Nat) (ex : TokenExchange) :
    AuthStep :=
  if token_cache_valid p now then
    ⟨.ok (p.token.getD ""), p, 0⟩
  else
    match ex with
    | .transportError => ⟨.authFailed, p, 1⟩
    | .httpResponse status body =>
        if 400 ≤ status ∧ status < 600 then
          ⟨.authFailed, p, 1⟩
        else
          match body with
          | none => ⟨.uncaughtError, p, 1⟩
          | some b =>
              match b.access_token with
              | none => ⟨.uncaughtError, p, 1⟩
              | some tok =>
                  ⟨.ok tok,
                   { p with
                       token := some tok,
                       token_expiry := some (now + b.expires_in.getD 3600) },
                   1⟩

/-- Outcome of the `requests.get/post/put/delete` inside `_make_api_call`:
a `RequestException` with no response attached (`e.response is None`), or a
response with status, parsed body (`none` = not valid JSON) and raw text. -/
inductive HttpOutcome where
  | transportError : HttpOutcome
  | response (status : Nat) (bodyJson : Option Json) (bodyText : String) :
      HttpOutcome

/-- What `_make_api_call` returns on the success path: the parsed JSON
(`response.json()`), or the raw text when the body is not valid JSON. -/
inductive ApiResult where
  | json (j : Json) : ApiResult
  | text (s : String) : ApiResult

/-- The error `_make_api_call` raises: either no response was attached to
the exception (pure transport failure), or an HTTP error whose message
carries the status code and the error details (the body parsed as JSON when
possible, otherwise the raw response text). -/
inductive ApiCallFailure where
  | transport : ApiCallFailure
  | http (status : Nat) (detail : ApiResult) : ApiCallFailure

/-- The repeated `try: ...json() except JSONDecodeError: ...text` pattern:
the parsed body when it is valid JSON, the raw text otherwise. -/
def parsed_or_text (bodyJson : Option Json) (bodyText : String) : ApiResult :=
  match bodyJson with
  | some j => .json j
  | none => .text bodyText

/-- Response handling of `_make_api_call`, lines 102–121 of the source:
`raise_for_status` raises `HTTPError` exactly on a 4xx/5xx status (caught as
`RequestException`, re-raised with status code and details); otherwise the
body is returned, parsed as JSON when possible and as raw text otherwise. -/
def handle_response (o : HttpOutcome) : Except ApiCallFailure ApiResult :=
  match o with
  | .transportError => .error .transport
  | .response status bodyJson bodyText =>
      if 400 ≤ status ∧ status < 600 then
        .error (.http status (parsed_or_text bodyJson bodyText))
      else
        .ok (parsed_or_text bodyJson bodyText)

/-- The HTTP methods `_make_api_call` dispatches on. -/
inductive Method where
  | GET : Method
  | POST : Method
  | PUT : Method
  | DELETE : Method
deriving DecidableEq, Repr

/-- One element of the `columns` list of the metrics query payload:
`{"column_id": ...}`. -/
structure ColumnConfig where
  column_id : String
deriving DecidableEq, Repr

/-- `{"sampling": 1.0}` — the `options` object of the query payload. -/
structure QueryOptions where
  sampling : ℚ
deriving DecidableEq, Repr

/-- The body POSTed to `/api/analytics/v1/query` by `get_metrics`. -/
structure QueryPayload where
  website_id : String
  date_from : String
  date_to : String
  columns : List ColumnConfig
  format : String
  column_format : String
  offset : Nat
  limit : Nat
  options : QueryOptions
deriving DecidableEq, Repr

/-- The `attributes` object of the annotation envelope. -/
structure UserAnnotationAttributes where
  content : String
  website_id : String
  date : String
  visibility : String
deriving DecidableEq, Repr

/-- The `{"data": {"type": "UserAnnotation", "attributes": {...}}}`
envelope POSTed to the annotation endpoint. -/
structure UserAnnotationData where
  type : String
  attributes : UserAnnotationAttributes
deriving DecidableEq, Repr

/-- Body of an API request: none (GET/DELETE wrappers), a metrics query, or
an annotation envelope. -/
inductive RequestBody where
  | empty : RequestBody
  | query (q : QueryPayload) : RequestBody
  | userAnnotationEnvelope (d : UserAnnotationData) : RequestBody
deriving DecidableEq, Repr

/-- The HTTP request a client method hands to `_make_api_call`. -/
structure ApiRequest where
  endpoint : String
  method : Method
  body : RequestBody
deriving DecidableEq, Repr

/-- `PiwikAnalytics.get_websites`: `GET /api/apps/v2`. -/
def PiwikAnalytics.get_websites : ApiRequest :=
  ⟨"/api/apps/v2", .GET, .empty⟩

/-- `PiwikAnalytics.get_website_details`: `GET /api/apps/v2/{website_id}`. -/
def PiwikAnalytics.get_website_details (website_id : String) : ApiRequest :=
  ⟨"/api/apps/v2/" ++ website_id, .GET, .empty⟩

/-- The `metric_mapping` dict of `PiwikAnalytics.get_metrics`, lines
153–164 of the source, verbatim. -/
def metric_mapping : List (String × String) :=
  [("visits", "sessions"),
   ("pageviews", "page_views"),
   ("bounce_rate", "bounce_rate"),
   ("avg_time_on_site", "session_total_time"),
   ("unique_visitors", "visitors"),
   ("conversion_rate", "goal_conversion_rate"),
   ("revenue", "revenue"),
   ("cart_abandonment", "abandoned_cart_rate"),
   ("exit_rate", "exit_rate"),
   ("entry_rate", "entry_rate")]

/-- The column-resolution loop of `get_metrics`, lines 166–173: each
requested name found in `metric_mapping` appends `{"column_id": mapped}`;
an unknown name only logs a warning. -/
def column_configs (columns : List String) : List ColumnConfig :=
  columns.foldl
    (fun acc column =>
      match metric_mapping.lookup column with
      | some cid => acc ++ [⟨cid⟩]
      | none => acc)
    []

/-- `PiwikAnalytics.get_metrics`, lines 131–186: resolve the columns, build
the query payload with its fixed defaults and POST it. -/
def PiwikAnalytics.get_metrics (website_id date_from date_to : String)
    (columns : List String) : ApiRequest :=
  ⟨"/api/analytics/v1/query", .POST,
   .query
     { website_id := website_id,
       date_from := date_from,
       date_to := date_to,
       columns := column_configs columns,
       format := "json",
       column_format := "id",
       offset := 0,
       limit := 100,
       options := ⟨1⟩ }⟩

/-- `date or datetime.now().strftime("%Y-%m-%d")`: the given date when it
is a truthy (non-`None`, non-empty) string, today's date otherwise. -/
def date_or_today (date : Option String) (today : String) : String :=
  match date with
  | none => today
  | some d => if d = "" then today else d

/-- `PiwikAnalytics.create_annotation`, lines 188–216: wrap the arguments
into the annotation envelope and POST it.  `today` stands for
`datetime.now().strftime("%Y-%m-%d")`. -/
def PiwikAnalytics.create_annotation (website_id content : String)
    (date : Option String) (visibility : String) (today : String) :
    ApiRequest :=
  ⟨"/api/analytics/v1/manage/annotation/user/", .POST,
   .userAnnotationEnvelope
     ⟨"UserAnnotation",
      ⟨content, website_id, date_or_today date today, visibility⟩⟩⟩

/-- `PiwikAnalytics.get_annotations`, lines 218–222: GET with the website
id interpolated into the query string. -/
def PiwikAnalytics.get_annotations (website_id : String) : ApiRequest :=
  ⟨"/api/analytics/v1/manage/annotation/user?website_id=" ++ website_id,
   .GET, .empty⟩

/-- `Exception("Piwik PRO API client not initialized. Check credentials.")`
raised by every tool when the global `piwik` is `None`. -/
def clientNotInitializedMsg : String :=
  "Piwik PRO API client not initialized. Check credentials."

/-- The `list_websites` tool, lines 245–259: fails when the client is not
initialized, otherwise delegates to `get_websites`. -/
def list_websites (piwik : Option PiwikAnalytics) :
    Except String ApiRequest :=
  match piwik with
  | none => .error clientNotInitializedMsg
  | some _ => .ok PiwikAnalytics.get_websites

/-- The `get_website_details` tool, lines 262–277: client check, then a
non-empty `website_id`, then delegate. -/
def get_website_details (piwik : Option PiwikAnalytics)
    (website_id : String) : Except String ApiRequest :=
  match piwik with
  | none => .error clientNotInitializedMsg
  | some _ =>
      if website_id = "" then .error "website_id is required"
      else .ok ( PiwikAnalytics.get_website_details website_id)

/-- The `get_metrics` tool, lines 280–319: client check, non-empty
`website_id`, `date_from`, `date_to` and a non-empty `columns` list, then
delegate. -/
def get_metrics (piwik : Option PiwikAnalytics)
    (website_id date_from date_to : String) (columns : List String) :
    Except String ApiRequest :=
  match piwik with
  | none => .error clientNotInitializedMsg
  | some _ =>
      if website_id = "" then .error "website_id is required"
      else if date_from = "" then .error "date_from is required"
      else if date_to = "" then .error "date_to is required"
      else if columns = [] then .error "At least one column is required"
      else .ok ( PiwikAnalytics.get_metrics website_id date_from date_to
                  columns)

/-- The `create_annotation` tool, lines 322–348.  `date = none` and
`visibility = none` model the Python defaults `None` and `"private"` for
omitted arguments.  Validation order as in the source: client, website_id,
content non-empty, content length, visibility enum; only then delegate. -/
def create_annotation (piwik : Option PiwikAnalytics)
    (website_id content : String) (date : Option String)
    (visibility : Option String) (today : String) :
    Except String ApiRequest :=
  let visibility := visibility.getD "private"
  match piwik with
  | none => .error clientNotInitializedMsg
  | some _ =>
      if website_id = "" then .error "website_id is required"
      else if content = "" then .error "content is required"
      else if 150 < content.length then
        .error "content must be 150 characters or less"
      else if visibility ∉ ["private", "public"] then
        .error "visibility must be 'private' or 'public'"
      else .ok ( PiwikAnalytics.create_annotation website_id content date
                  visibility today)

/-- The `get_annotations` tool, lines 351–366: client check, non-empty
`website_id`, then delegate. -/
def get_annotations (piwik : Option PiwikAnalytics) (website_id : String) :
    Except String ApiRequest :=
  match piwik with
  | none => .error clientNotInitializedMsg
  | some _ =>
      if website_id = "" then .error "website_id is required"
      else .ok ( PiwikAnalytics.get_annotations website_id)

/-! ## Helper lemmas -/

theorem column_configs_foldl_eq (cols : List String)
    (acc : List ColumnConfig) :
    cols.foldl
        (fun acc column =>
          match metric_mapping.lookup column with
          | some cid => acc ++ [⟨cid⟩]
          | none => acc)
        acc
      = acc
        ++ cols.filterMap
             (fun c => (metric_mapping.lookup c).map ColumnConfig.mk) := by
  induction cols generalizing acc with
  | nil => simp
  | cons c cs ih =>
      cases h : metric_mapping.lookup c with
      | none => simp [List.foldl_cons, List.filterMap_cons, h, ih]
      | some cid => simp [List.foldl_cons, List.filterMap_cons, h, ih]

theorem column_configs_eq_filterMap (cols : List String) :
    column_configs cols
      = cols.filterMap
          (fun c => (metric_mapping.lookup c).map ColumnConfig.mk) := by
  unfold column_configs
  simpa using column_configs_foldl_eq cols []

theorem token_cache_valid_iff (p : PiwikAnalytics) (now : Nat) (t : String)
    (e : Nat) (htok : p.token = some t) (hexp : p.token_expiry = some e) :
    token_cache_valid p now = true ↔ t ≠ "" ∧ e ≠ 0 ∧ now < e := by
  unfold token_cache_valid
  rw [htok, hexp]
  simp [and_assoc]

theorem get_auth_token_of_valid (p : PiwikAnalytics) (now : Nat)
    (ex : TokenExchange) (h : token_cache_valid p now = true) :
    get_auth_token p now ex = ⟨.ok (p.token.getD ""), p, 0⟩ := by
  simp [get_auth_token, h]

theorem get_auth_token_exchanges_of_invalid (p : PiwikAnalytics) (now : Nat)
    (ex : TokenExchange) (h : token_cache_valid p now = false) :
    ( get_auth_token p now ex).exchanges = 1 := by
  unfold get_auth_token
  rw [h]
  cases ex with
  | transportError => rfl
  | httpResponse status body =>
      by_cases hs : 400 ≤ status ∧ status < 600
      · simp [hs]
      · cases body with
        | none => simp [hs]
        | some b =>
            rcases b with ⟨a, ei⟩
            cases a <;> simp [hs]

theorem get_auth_token_success (p : PiwikAnalytics) (now status : Nat)
    (b : TokenBody) (tok : String) (h : token_cache_valid p now = false)
    (hs : ¬ (400 ≤ status ∧ status < 600))
    (hb : b.access_token = some tok) :
    get_auth_token p now (.httpResponse status (some b))
      = ⟨.ok tok,
         { p with
             token := some tok,
             token_expiry := some (now + b.expires_in.getD 3600) }, 1⟩ := by
  unfold get_auth_token
  rw [h]
  simp [hs, hb]

theorem get_auth_token_transport_fail (p : PiwikAnalytics) (now : Nat)
    (h : token_cache_valid p now = false) :
    get_auth_token p now .transportError = ⟨.authFailed, p, 1⟩ := by
  simp [get_auth_token, h]

theorem get_auth_token_http_fail (p : PiwikAnalytics) (now status : Nat)
    (body : Option TokenBody) (h : token_cache_valid p now = false)
    (hs : 400 ≤ status ∧ status < 600) :
    get_auth_token p now (.httpResponse status body)
      = ⟨.authFailed, p, 1⟩ := by
  simp [get_auth_token, h, hs]

/-! ## The claims -/

/-- C2: `get_metrics` resolves each requested column name through the static
`metric_mapping` table; the resolved list holds exactly the mapped entries of
the names present in the table, in request order and multiplicity, unknown
names are dropped rather than failing, and the tool call still proceeds (in
particular `["visits", "bogus_column"]` resolves to the entry for "visits"
alone). -/
theorem c2_column_resolution :
    (∀ columns : List String,
        column_configs columns
          = columns.filterMap
              (fun c => (metric_mapping.lookup c).map ColumnConfig.mk)) ∧
    column_configs ["visits", "bogus_column"] = [⟨"sessions"⟩] ∧
    (∀ (p : PiwikAnalytics) (website_id date_from date_to : String)
        (columns : List String),
        website_id ≠ "" → date_from ≠ "" → date_to ≠ "" → columns ≠ [] →
        get_metrics (some p) website_id date_from date_to columns
          = .ok ( PiwikAnalytics.get_metrics website_id date_from date_to
                   columns)) := by
  refine ⟨column_configs_eq_filterMap, by decide, ?_⟩
  intro p w df dt cols hw hdf hdt hcols
  simp [get_metrics, hw, hdf, hdt, hcols]

/-- C2 witness: the `get_metrics` tool proceeds on
`["visits", "bogus_column"]` with an initialized client. -/
theorem c2_column_resolution_witness :
    get_metrics (some ( PiwikAnalytics.init "i" "s" "d")) "w" "2024-01-01"
        "2024-01-31" ["visits", "bogus_column"]
      = .ok ( PiwikAnalytics.get_metrics "w" "2024-01-01" "2024-01-31"
               ["visits", "bogus_column"]) :=
  c2_column_resolution.2.2 ( PiwikAnalytics.init "i" "s" "d") "w"
    "2024-01-01" "2024-01-31" ["visits", "bogus_column"] (by decide)
    (by decide) (by decide) (by decide)

/-- C4: when the global client was never constructed (missing credentials),
each of the five tools fails immediately with the client-not-initialized
error; the `.error` result carries no `ApiRequest`, so no network call
occurs. -/
theorem c4_uninitialized_client :
    ∀ (website_id date_from date_to content today : String)
      (columns : List String) (date visibility : Option String),
      list_websites none = .error clientNotInitializedMsg ∧
      get_website_details none website_id
        = .error clientNotInitializedMsg ∧
      get_metrics none website_id date_from date_to columns
        = .error clientNotInitializedMsg ∧
      create_annotation none website_id content date visibility today
        = .error clientNotInitializedMsg ∧
      get_annotations none website_id = .error clientNotInitializedMsg := by
  intro _ _ _ _ _ _ _ _
  exact ⟨rfl, rfl, rfl, rfl, rfl⟩

/-- C7: every `get_metrics` invocation POSTs to the metrics endpoint a
payload with the fixed defaults `format = "json"`, `column_format = "id"`,
`offset = 0`, `limit = 100`, `options.sampling = 1.0`, alongside the given
website id, dates, and the resolved column list. -/
theorem c7_query_payload_defaults :
    ∀ (website_id date_from date_to : String) (columns : List String),
      PiwikAnalytics.get_metrics website_id date_from date_to columns
        = { endpoint := "/api/analytics/v1/query",
            method := .POST,
            body := .query
              { website_id := website_id,
                date_from := date_from,
                date_to := date_to,
                columns := column_configs columns,
                format := "json",
                column_format := "id",
                offset := 0,
                limit := 100,
                options := { sampling := 1 } } } := by
  intro _ _ _ _
  rfl

/-- C8: "avg_order_value" has no entry in `metric_mapping`, so a request
containing that name contributes no entry to the resolved column list - the
resolution of any list is unchanged when "avg_order_value" is removed. -/
theorem c8_avg_order_value_unreachable :
    metric_mapping.lookup "avg_order_value" = none ∧
    ∀ (xs ys : List String),
      column_configs (xs ++ "avg_order_value" :: ys)
        = column_configs (xs ++ ys) := by
  have h : metric_mapping.lookup "avg_order_value" = none := by decide
  refine ⟨h, ?_⟩
  intro xs ys
  simp [column_configs_eq_filterMap, List.filterMap_append,
        List.filterMap_cons, h]

/-- C9: the absolute URL of every API call is `https://` ++ the configured
domain ++ the endpoint, the domain defaulting to `analytics.piwik.pro` when
the environment variable is absent; the client the module constructs carries
that same domain. -/
theorem c9_url_from_configured_domain :
    (∀ (envDomain : Option String) (endpoint : String),
        apiUrl envDomain endpoint
          = ("https://" ++ piwikProDomain envDomain) ++ endpoint) ∧
    piwikProDomain none = "analytics.piwik.pro" ∧
    (∀ (envDomain : Option String) (cid cs : String) (p : PiwikAnalytics),
        initPiwik (some cid) (some cs) envDomain = some p →
        p.domain = piwikProDomain envDomain) := by
  refine ⟨fun _ _ => rfl, rfl, ?_⟩
  intro env cid cs p h
  by_cases hc : cid ≠ "" ∧ cs ≠ ""
  · simp [initPiwik, hc] at h
    subst h
    rfl
  · simp [initPiwik, hc] at h

/-- C9 witness: with no domain configured the URL is built from the default
domain, and a client constructed from an explicit domain records it. -/
theorem c9_url_witness :
    apiUrl none "/api/apps/v2" = "https://analytics.piwik.pro/api/apps/v2" ∧
    ( PiwikAnalytics.init "id" "sec" "example.org").domain
      = piwikProDomain (some "example.org") :=
  ⟨(c9_url_from_configured_domain.1 none "/api/apps/v2").trans (by decide),
   c9_url_from_configured_domain.2.2 (some "example.org") "id" "sec"
     ( PiwikAnalytics.init "id" "sec" "example.org") (by decide)⟩

/-- C1: `_get_auth_token` returns the cached token (with no exchange and no
state change) iff a token is cached (a nonempty string, as Python truthiness
tests it) and the current time is strictly before its expiry; otherwise
exactly one exchange occurs, and a successful exchange caches the new token
with expiry `now + expires_in` (default 3600 when the field is absent).
Consequently two consecutive calls within the validity window perform
exactly one exchange in total: one on the first call, none on the second. -/
theorem c1_token_caching :
    (∀ (p : PiwikAnalytics) (now : Nat) (ex : TokenExchange) (t : String)
        (e : Nat),
        p.token = some t → t ≠ "" → p.token_expiry = some e →
        ( get_auth_token p now ex = ⟨.ok t, p, 0⟩ ↔ now < e)) ∧
    (∀ (p : PiwikAnalytics) (now : Nat) (ex : TokenExchange),
        token_cache_valid p now = false →
        ( get_auth_token p now ex).exchanges = 1) ∧
    (∀ (p : PiwikAnalytics) (now status : Nat) (b : TokenBody)
        (tok : String),
        token_cache_valid p now = false →
        ¬ (400 ≤ status ∧ status < 600) →
        b.access_token = some tok →
        get_auth_token p now (.httpResponse status (some b))
          = ⟨.ok tok,
             { p with
                 token := some tok,
                 token_expiry := some (now + b.expires_in.getD 3600) },
             1⟩) ∧
    (∀ (p : PiwikAnalytics) (now₁ now₂ status : Nat) (b : TokenBody)
        (tok : String) (ex₂ : TokenExchange),
        token_cache_valid p now₁ = false →
        ¬ (400 ≤ status ∧ status < 600) →
        b.access_token = some tok → tok ≠ "" →
        now₂ < now₁ + b.expires_in.getD 3600 →
        ( get_auth_token p now₁ (.httpResponse status (some b))).exchanges
            = 1 ∧
        get_auth_token
            ( get_auth_token p now₁
                (.httpResponse status (some b))).client now₂ ex₂
          = ⟨.ok tok,
             ( get_auth_token p now₁
                 (.httpResponse status (some b))).client, 0⟩) := by
  refine ⟨?_, get_auth_token_exchanges_of_invalid, get_auth_token_success, ?_⟩
  · intro p now ex t e htok hne hexp
    constructor
    · intro heq
      by_contra hlt
      have hv : token_cache_valid p now = false := by
        rcases Bool.eq_false_or_eq_true (token_cache_valid p now) with h | h
        · exact absurd ((token_cache_valid_iff p now t e htok hexp).mp h).2.2
            hlt
        · exact h
      have h1 := get_auth_token_exchanges_of_invalid p now ex hv
      rw [heq] at h1
      simp at h1
    · intro hlt
      have hv : token_cache_valid p now = true :=
        (token_cache_valid_iff p now t e htok hexp).mpr
          ⟨hne, by omega, hlt⟩
      rw [get_auth_token_of_valid p now ex hv, htok]
      rfl
  · intro p n₁ n₂ status b tok ex₂ hv hs hb hne hlt
    have h1 := get_auth_token_success p n₁ status b tok hv hs hb
    refine ⟨by rw [h1], ?_⟩
    rw [h1]
    have hv2 : token_cache_valid
        { p with
            token := some tok,
            token_expiry := some (n₁ + b.expires_in.getD 3600) } n₂
        = true :=
      (token_cache_valid_iff _ n₂ tok (n₁ + b.expires_in.getD 3600) rfl
        rfl).mpr ⟨hne, by omega, hlt⟩
    rw [get_auth_token_of_valid _ n₂ ex₂ hv2]
    rfl

/-- C1 witness: a cached, unexpired token is reused without an exchange; a
fresh client exchanges once at time 0, and a second call at time 50 (within
the 100-second window) reuses the token, so the pair performs exactly one
exchange. -/
theorem c1_token_caching_witness :
    get_auth_token ⟨"i", "s", "d", some "tok", some 110⟩ 10 .transportError
      = ⟨.ok "tok", ⟨"i", "s", "d", some "tok", some 110⟩, 0⟩ ∧
    ( get_auth_token ( PiwikAnalytics.init "i" "s" "d") 0
        (.httpResponse 200 (some ⟨some "t", some 100⟩))).exchanges = 1 ∧
    get_auth_token
        ( get_auth_token ( PiwikAnalytics.init "i" "s" "d") 0
            (.httpResponse 200 (some ⟨some "t", some 100⟩))).client 50
        .transportError
      = ⟨.ok "t",
         ( get_auth_token ( PiwikAnalytics.init "i" "s" "d") 0
             (.httpResponse 200 (some ⟨some "t", some 100⟩))).client, 0⟩ :=
  ⟨(c1_token_caching.1 ⟨"i", "s", "d", some "tok", some 110⟩ 10
      .transportError "tok" 110 rfl (by decide) rfl).mpr (by decide),
   (c1_token_caching.2.2.2 ( PiwikAnalytics.init "i" "s" "d") 0 50 200
      ⟨some "t", some 100⟩ "t" .transportError (by decide) (by decide) rfl
      (by decide) (by decide)).1,
   (c1_token_caching.2.2.2 ( PiwikAnalytics.init "i" "s" "d") 0 50 200
      ⟨some "t", some 100⟩ "t" .transportError (by decide) (by decide) rfl
      (by decide) (by decide)).2⟩

/-- C10 counterexample: the claim speaks of every non-2xx response, but
`raise_for_status` raises only on 4xx/5xx.  On a 304 response whose body
carries a token, `_get_auth_token` raises nothing and REPLACES the cache:
starting from the fresh client, the call succeeds and both `token` and
`token_expiry` change. -/
theorem c10_counterexample :
    (304 < 200 ∨ 300 ≤ 304) ∧
    get_auth_token ( PiwikAnalytics.init "i" "s" "d") 0
        (.httpResponse 304 (some ⟨some "t", some 60⟩))
      = ⟨.ok "t", ⟨"i", "s", "d", some "t", some 60⟩, 1⟩ ∧
    (⟨"i", "s", "d", some "t", some 60⟩ : PiwikAnalytics)
      ≠ PiwikAnalytics.init "i" "s" "d" := by
  exact ⟨by decide, by decide, by decide⟩

/-- C10 (amended): when the token exchange fails with a transport error or a
4xx/5xx response, `_get_auth_token` raises the authentication failure (when
an exchange happens at all, i.e. the cache was invalid) and leaves the whole
client state - cached token and expiry included - unchanged. -/
theorem c10_failed_exchange_preserves_cache :
    (∀ (p : PiwikAnalytics) (now : Nat),
        ( get_auth_token p now .transportError).client = p ∧
        (token_cache_valid p now = false →
            ( get_auth_token p now .transportError).result
              = .authFailed)) ∧
    (∀ (p : PiwikAnalytics) (now status : Nat) (body : Option TokenBody),
        400 ≤ status → status < 600 →
        ( get_auth_token p now (.httpResponse status body)).client = p ∧
        (token_cache_valid p now = false →
            ( get_auth_token p now (.httpResponse status body)).result
              = .authFailed)) := by
  constructor
  · intro p now
    rcases Bool.eq_false_or_eq_true (token_cache_valid p now) with h | h
    · rw [get_auth_token_of_valid p now .transportError h]
      exact ⟨rfl, fun hf => by rw [hf] at h; exact Bool.noConfusion h⟩
    · rw [get_auth_token_transport_fail p now h]
      exact ⟨rfl, fun _ => rfl⟩
  · intro p now status body h4 h6
    rcases Bool.eq_false_or_eq_true (token_cache_valid p now) with h | h
    · rw [get_auth_token_of_valid p now (.httpResponse status body) h]
      exact ⟨rfl, fun hf => by rw [hf] at h; exact Bool.noConfusion h⟩
    · rw [get_auth_token_http_fail p now status body h ⟨h4, h6⟩]
      exact ⟨rfl, fun _ => rfl⟩

/-- C10 witness: a transport failure and a 401 response each leave the fresh
client's cache unchanged and surface the authentication failure. -/
theorem c10_failed_exchange_witness :
    ( get_auth_token ⟨"i", "s", "d", none, none⟩ 5 .transportError).client
      = ⟨"i", "s", "d", none, none⟩ ∧
    ( get_auth_token ⟨"i", "s", "d", none, none⟩ 5
        (.httpResponse 401 (some ⟨some "t", some 60⟩))).client
      = ⟨"i", "s", "d", none, none⟩ ∧
    ( get_auth_token ⟨"i", "s", "d", none, none⟩ 5
        (.httpResponse 401 (some ⟨some "t", some 60⟩))).result
      = .authFailed :=
  ⟨(c10_failed_exchange_preserves_cache.1 ⟨"i", "s", "d", none, none⟩ 5).1,
   (c10_failed_exchange_preserves_cache.2 ⟨"i", "s", "d", none, none⟩ 5 401
      (some ⟨some "t", some 60⟩) (by decide) (by decide)).1,
   (c10_failed_exchange_preserves_cache.2 ⟨"i", "s", "d", none, none⟩ 5 401
      (some ⟨some "t", some 60⟩) (by decide) (by decide)).2 (by decide)⟩

/-- C5 counterexample: the claim speaks of every non-2xx response, but
`raise_for_status` raises only on 4xx/5xx: a 304 response is non-2xx yet
`_make_api_call` succeeds and returns the body instead of failing with the
error carrying the status code. -/
theorem c5_counterexample :
    (304 < 200 ∨ 300 ≤ 304) ∧
    handle_response (.response 304 none "Not Modified")
      = .ok (.text "Not Modified") :=
  ⟨by decide, rfl⟩

/-- C5 (amended): every API call receiving a 4xx or 5xx response fails with
the API-call error carrying the HTTP status code and, as detail, the body
parsed as JSON when it is valid JSON and the raw response text otherwise;
any other status is treated as success. -/
theorem c5_http_error_carries_status_and_detail :
    (∀ (status : Nat) (bodyJson : Option Json) (bodyText : String),
        400 ≤ status → status < 600 →
        handle_response (.response status bodyJson bodyText)
          = .error (.http status (parsed_or_text bodyJson bodyText))) ∧
    (∀ (status : Nat) (bodyJson : Option Json) (bodyText : String),
        ¬ (400 ≤ status ∧ status < 600) →
        handle_response (.response status bodyJson bodyText)
          = .ok (parsed_or_text bodyJson bodyText)) ∧
    (∀ (j : Json) (bodyText : String),
        parsed_or_text (some j) bodyText = .json j) ∧
    (∀ bodyText : String, parsed_or_text none bodyText = .text bodyText) := by
  refine ⟨?_, ?_, fun _ _ => rfl, fun _ => rfl⟩
  · intro status bj bt h4 h6
    simp [handle_response, h4, h6]
  · intro status bj bt hs
    simp [handle_response, hs]

/-- C5 witness: a 404 with a non-JSON body fails with the status and the raw
text as detail; a 500 with a JSON body fails with the status and the parsed
JSON as detail. -/
theorem c5_http_error_witness :
    handle_response (.response 404 none "not found")
      = .error (.http 404 (.text "not found")) ∧
    handle_response (.response 500 (some .null) "null")
      = .error (.http 500 (.json .null)) :=
  ⟨c5_http_error_carries_status_and_detail.1 404 none "not found"
     (by decide) (by decide),
   c5_http_error_carries_status_and_detail.1 500 (some .null) "null"
     (by decide) (by decide)⟩

/-- C6: a 2xx response whose body is not valid JSON succeeds and returns the
raw text verbatim; one whose body is valid JSON returns the parsed JSON. -/
theorem c6_success_body_handling :
    ∀ (status : Nat) (bodyText : String) (j : Json),
      200 ≤ status → status < 300 →
      handle_response (.response status none bodyText)
          = .ok (.text bodyText) ∧
      handle_response (.response status (some j) bodyText)
          = .ok (.json j) := by
  intro status bt j h2 h3
  have hs : ¬ (400 ≤ status ∧ status < 600) := by omega
  exact ⟨by simp [handle_response, hs, parsed_or_text],
         by simp [handle_response, hs, parsed_or_text]⟩

/-- C6 witness: a 200 response with plain-text body is returned verbatim; a
200 response with a JSON body is returned parsed. -/
theorem c6_success_body_witness :
    handle_response (.response 200 none "plain")
      = .ok (.text "plain") ∧
    handle_response (.response 200 (some .null) "x")
      = .ok (.json .null) :=
  ⟨(c6_success_body_handling 200 "plain" .null (by decide) (by decide)).1,
   (c6_success_body_handling 200 "x" .null (by decide) (by decide)).2⟩

/-- C3: `create_annotation` validates before any network call (a validation
failure returns an error and no request): empty content is rejected,
content longer than 150 characters is rejected (so length 151 fails and
length 150 passes), a provided visibility outside private/public is
rejected, an omitted visibility defaults to "private", and valid inputs
proceed to the POST. -/
theorem c3_create_annotation_validation :
    ∀ (p : PiwikAnalytics) (website_id today : String)
      (date : Option String) (visibility : Option String)
      (content : String),
      website_id ≠ "" →
      ( create_annotation (some p) website_id "" date visibility today
          = .error "content is required") ∧
      (150 < content.length →
          create_annotation (some p) website_id content date visibility
              today
            = .error "content must be 150 characters or less") ∧
      (∀ v : String, content ≠ "" → content.length ≤ 150 →
          v ≠ "private" → v ≠ "public" →
          create_annotation (some p) website_id content date (some v) today
            = .error "visibility must be 'private' or 'public'") ∧
      (content ≠ "" → content.length ≤ 150 →
          create_annotation (some p) website_id content date none today
            = .ok ( PiwikAnalytics.create_annotation website_id content
                     date "private" today)) ∧
      (∀ v : String, content ≠ "" → content.length ≤ 150 →
          (v = "private" ∨ v = "public") →
          create_annotation (some p) website_id content date (some v) today
            = .ok ( PiwikAnalytics.create_annotation website_id content
                     date v today)) := by
  intro p w today date vis content hw
  refine ⟨?_, ?_, ?_, ?_, ?_⟩
  · simp [ create_annotation, hw]
  · intro hlen
    have hc : content ≠ "" := by
      intro h
      rw [h] at hlen
      simp at hlen
    simp [ create_annotation, hw, hc, hlen]
  · intro v hc hlen hv1 hv2
    have hnl : ¬ 150 < content.length := by omega
    simp [ create_annotation, hw, hc, hnl, hv1, hv2]
  · intro hc hlen
    have hnl : ¬ 150 < content.length := by omega
    simp [ create_annotation, hw, hc, hnl]
  · intro v hc hlen hv
    have hnl : ¬ 150 < content.length := by omega
    rcases hv with h | h <;> subst h <;>
      simp [ create_annotation, hw, hc, hnl]

/-- C3 witness: with an initialized client, content of 151 characters fails
validation, content of 150 characters passes and proceeds with visibility
defaulting to "private", and `visibility = "secret"` fails validation. -/
theorem c3_create_annotation_witness :
    create_annotation (some ( PiwikAnalytics.init "i" "s" "d")) "w"
        (String.mk (List.replicate 151 'a')) none none "2026-01-01"
      = .error "content must be 150 characters or less" ∧
    create_annotation (some ( PiwikAnalytics.init "i" "s" "d")) "w"
        (String.mk (List.replicate 150 'a')) none none "2026-01-01"
      = .ok ( PiwikAnalytics.create_annotation "w"
               (String.mk (List.replicate 150 'a')) none "private"
               "2026-01-01") ∧
    create_annotation (some ( PiwikAnalytics.init "i" "s" "d")) "w" "note"
        none (some "secret") "2026-01-01"
      = .error "visibility must be 'private' or 'public'" :=
  ⟨(c3_create_annotation_validation ( PiwikAnalytics.init "i" "s" "d") "w"
      "2026-01-01" none none (String.mk (List.replicate 151 'a'))
      (by decide)).2.1 (by decide),
   (c3_create_annotation_validation ( PiwikAnalytics.init "i" "s" "d") "w"
      "2026-01-01" none none (String.mk (List.replicate 150 'a'))
      (by decide)).2.2.2.1 (by decide) (by decide),
   (c3_create_annotation_validation ( PiwikAnalytics.init "i" "s" "d") "w"
      "2026-01-01" none (some "secret") "note" (by decide)).2.2.1 "secret"
     (by decide) (by decide) (by decide) (by decide)⟩

end PiwikProMcp
